import Mathlib

/-!
Verification of the socklocks library (socklocks.py): a mutual-exclusion
lock for unrelated OS processes built on passing a listening socket
between processes.  This file gives a shallow embedding of the pure
decision logic of the source module: platform capability detection,
address derivation in `SocketLock.__init__`, the TCP-backend descriptor
handoff wire format, the connect retry loop, the acquire loop, the
release path, the thread-safe wrapper, and the multiprocessing-context
shim.  OS effects (socket creation, recv results, accept results,
random draws, the process-wide `hash` seed, the temp directory) are
modelled as explicit inputs.
-/

namespace Socklocks

/-! ## Platform capability detection (module top level, lines 17-26) -/

/-- The platform facts probed at import time:
`hasattr(socket, "AF_UNIX")`, `platform.system() == "Linux"`,
`hasattr(socket.socket, "sendmsg")`, `hasattr(socket, "SCM_RIGHTS")`,
`hasattr(socket.socket, "share")`. -/
structure Platform where
  hasAF_UNIX : Bool
  isLinux : Bool
  hasSendmsg : Bool
  hasSCM_RIGHTS : Bool
  hasShare : Bool
deriving DecidableEq, Repr

/-- SUPPORTS_UNIX_SOCKS = hasattr(socket, AF_UNIX). -/
def SUPPORTS_UNIX_SOCKS (p : Platform) : Bool := p.hasAF_UNIX

/-- SUPPORTS_ABSTRACT_SOCKS = SUPPORTS_UNIX_SOCKS and platform.system() == Linux. -/
def SUPPORTS_ABSTRACT_SOCKS (p : Platform) : Bool :=
  SUPPORTS_UNIX_SOCKS p && p.isLinux

/-- SUPPORTS_CMSG_SHARE = SUPPORTS_UNIX_SOCKS and sendmsg and SCM_RIGHTS. -/
def SUPPORTS_CMSG_SHARE (p : Platform) : Bool :=
  SUPPORTS_UNIX_SOCKS p && p.hasSendmsg && p.hasSCM_RIGHTS

/-- SUPPORTS_ANY_SHARE = hasattr(socket.socket, share). -/
def SUPPORTS_ANY_SHARE (p : Platform) : Bool := p.hasShare

/-- DEFAULT_ALLOWED_PORTS = range(10000, 65536), as the list of its
elements (55536 ports, 10000 .. 65535). -/
def DEFAULT_ALLOWED_PORTS : List Nat := List.range' 10000 55536

/-- SIMPLE_CHAR_BYTES = (string.ascii_lowercase + string.digits).encode:
the 26 lowercase ASCII letters followed by the 10 digits. -/
def SIMPLE_CHAR_BYTES : List Nat :=
  (List.range 26).map (· + 97) ++ (List.range 10).map (· + 48)

/-- SocketLock.PREFIX, the byte string "sklk". -/
def PREFIX_TAG : List Nat := [115, 107, 108, 107]

/-! ## Address and construction model (`SocketLock.__init__`, lines 40-80) -/

/-- The socket address family chosen at construction. -/
inductive AddrFamily
  | af_unix
  | af_inet
deriving DecidableEq, Repr

/-- A rendezvous address: an abstract-namespace Unix socket name
(a byte string starting with a NUL byte), a filesystem path for a named
Unix socket (a byte string), or a loopback TCP host/port pair. -/
inductive Addr
  | unixAbstract (bytes : List Nat)
  | unixPath (bytes : List Nat)
  | inet (host : String) (port : Nat)
deriving DecidableEq, Repr

/-- Whether `isinstance(addr, (bytes, bytearray, str))` holds: both Unix
address forms are byte strings, the TCP address is a tuple. -/
def Addr.isPathLike : Addr → Bool
  | .unixAbstract _ => true
  | .unixPath _ => true
  | .inet _ _ => false

/-- The value stored in `self._name`: the name bytes, or, for the TCP
backend with no name given, the randomly chosen port number itself
(`port = name = random.choice(...)`). -/
inductive NameVal
  | bytes (bs : List Nat)
  | int (n : Nat)
deriving DecidableEq, Repr

/-- Errors `SocketLock.__init__` can raise: NotImplementedError when no
backend is supported (lines 74-77), or IndexError from
`allowed_inet_ports[position]` when the computed position is out of
range (line 69). -/
inductive InitError
  | unsupportedPlatform
  | indexError
deriving DecidableEq, Repr

/-- The random draws `__init__` may consume, as explicit inputs:
`absByte i` models the i-th `random.getrandbits(8)` call (reduced mod
256), `nameLenDraw` models `random.randint(4, 22)` (reduced into the
range 4 .. 22), `nameCharDraw i` models the i-th draw of
`random.choices(SIMPLE_CHAR_BYTES, ...)` (an index into that list), and
`portDraw` models `random.choice(allowed_inet_ports)` (an index into
the allowed list). -/
structure Entropy where
  absByte : Nat → Nat
  nameLenDraw : Nat
  nameCharDraw : Nat → Nat
  portDraw : Nat

/-- The random no-name identity of the abstract-socket branch:
`namelen = 107 - len(PREFIX)` random bytes (line 54-55). -/
def randomAbsName (e : Entropy) : List Nat :=
  (List.range (107 - PREFIX_TAG.length)).map (fun i => e.absByte i % 256)

/-- The random no-name identity of the named-socket branch: a name of
random length `randint(4, 22)` whose characters are drawn from
SIMPLE_CHAR_BYTES (lines 60-61). -/
def randomNamedName (e : Entropy) : List Nat :=
  (List.range (4 + e.nameLenDraw % 19)).map
    (fun i => SIMPLE_CHAR_BYTES.getD (e.nameCharDraw i % SIMPLE_CHAR_BYTES.length) 0)

/-- os.path.join for byte paths: append a slash (byte 47) between the
directory and the file name unless the directory is empty or already
ends with a slash. -/
def pathJoin (dir fname : List Nat) : List Nat :=
  if dir = [] then fname
  else if dir.getLast? = some 47 then dir ++ fname
  else dir ++ [47] ++ fname

/-- The mutable state of a SocketLock instance right after
construction: the fields `_addr_family`, `_addr`, `_needs_unlink`,
`_name`, `_max_waiters`, `_socket` (the last is always None at the end
of `__init__`, line 80). -/
structure LockState where
  addrFamily : AddrFamily
  addr : Addr
  needsUnlink : Bool
  name : NameVal
  maxWaiters : Nat
  sock : Option Unit
deriving DecidableEq, Repr

/-- The backend a constructed instance ended up on, read off from the
shape of its address. -/
inductive Backend
  | abstractUnix
  | namedUnix
  | loopbackTcp
deriving DecidableEq, Repr

/-- Which backend a constructed state is using. -/
def LockState.backend (st : LockState) : Backend :=
  match st.addr with
  | .unixAbstract _ => .abstractUnix
  | .unixPath _ => .namedUnix
  | .inet _ _ => .loopbackTcp

/-- The shared branch of the TCP backend taken when no (non-empty) name
was given: `port = name = random.choice(allowed_inet_ports)`
(line 71). -/
def tcpNoName (e : Entropy) (allowed : List Nat) (max_waiters : Nat) :
    Except InitError LockState :=
  let port := allowed.getD (e.portDraw % allowed.length) 0
  .ok { addrFamily := .af_inet, addr := .inet "127.0.0.1" port,
        needsUnlink := false, name := .int port,
        maxWaiters := max_waiters, sock := none }

/-- SocketLock.__init__ (lines 40-80).  `pyHash` models the
process-wide Python `hash` function on byte strings, `tmpdir` models
`tempfile.gettempdirb()`, `e` the random draws.  A str name is assumed
already ASCII-encoded to bytes (lines 46-48).  `if not name` is true
when the name is absent or the empty byte string. -/
def SocketLock.init (p : Platform) (pyHash : List Nat → Int) (tmpdir : List Nat)
    (e : Entropy) (name : Option (List Nat)) (max_waiters : Nat)
    (allowed_inet_ports : Option (List Nat)) : Except InitError LockState :=
  if SUPPORTS_ABSTRACT_SOCKS p && SUPPORTS_CMSG_SHARE p then
    let name2 := match name with
      | some bs => if bs.isEmpty then randomAbsName e else bs
      | none => randomAbsName e
    .ok { addrFamily := .af_unix, addr := .unixAbstract (0 :: (PREFIX_TAG ++ name2)),
          needsUnlink := false, name := .bytes name2,
          maxWaiters := max_waiters, sock := none }
  else if SUPPORTS_UNIX_SOCKS p && SUPPORTS_CMSG_SHARE p then
    let name2 := match name with
      | some bs => if bs.isEmpty then randomNamedName e else bs
      | none => randomNamedName e
    .ok { addrFamily := .af_unix, addr := .unixPath (pathJoin tmpdir (PREFIX_TAG ++ name2)),
          needsUnlink := true, name := .bytes name2,
          maxWaiters := max_waiters, sock := none }
  else if SUPPORTS_ANY_SHARE p then
    let allowed := match allowed_inet_ports with
      | some l => if l.isEmpty then DEFAULT_ALLOWED_PORTS else l
      | none => DEFAULT_ALLOWED_PORTS
    match name with
    | some bs =>
      if bs.isEmpty then tcpNoName e allowed max_waiters
      else
        -- position = hash(name) % (len(allowed_inet_ports) + 1)   (line 68)
        let position := (pyHash bs % ((allowed.length : Int) + 1)).toNat
        match allowed.get? position with
        | some port =>
          .ok { addrFamily := .af_inet, addr := .inet "127.0.0.1" port,
                needsUnlink := false, name := .bytes bs,
                maxWaiters := max_waiters, sock := none }
        | none => .error .indexError
    | none => tcpNoName e allowed max_waiters
  else
    .error .unsupportedPlatform

/-- The port formula as the specification states it:
`port = allowed_ports[hash(name) mod len(allowed_ports)]`.  Written
from the spec wording, for comparison with the source, which divides by
`len(allowed_inet_ports) + 1` instead. -/
def specTcpPort (pyHash : List Nat → Int) (name : List Nat) (allowed : List Nat) :
    Option Nat :=
  allowed.get? ((pyHash name % (allowed.length : Int)).toNat)

/-- Requirements of the AbstractUnixHandoff backend as the spec lists
them: Unix-domain sockets, an abstract (non-filesystem) socket
namespace, and ancillary-data descriptor passing. -/
def abstractUnixRequirements (p : Platform) : Bool :=
  SUPPORTS_UNIX_SOCKS p && SUPPORTS_ABSTRACT_SOCKS p && SUPPORTS_CMSG_SHARE p

/-- Requirements of the NamedUnixHandoff backend as the spec lists
them: Unix-domain sockets and ancillary-data descriptor passing. -/
def namedUnixRequirements (p : Platform) : Bool :=
  SUPPORTS_UNIX_SOCKS p && SUPPORTS_CMSG_SHARE p

/-- Requirement of the LoopbackTcpHandoff backend as the spec lists it:
a native duplicate-this-handle-for-another-process primitive. -/
def loopbackTcpRequirements (p : Platform) : Bool :=
  SUPPORTS_ANY_SHARE p

/-! ## Concrete platforms and entropies used in witnesses -/

/-- A Linux-like platform on which the abstract-socket backend wins. -/
def linuxPlatform : Platform :=
  { hasAF_UNIX := true, isLinux := true, hasSendmsg := true,
    hasSCM_RIGHTS := true, hasShare := false }

/-- A Unix platform without the abstract namespace: the named-socket
backend wins. -/
def bsdPlatform : Platform :=
  { hasAF_UNIX := true, isLinux := false, hasSendmsg := true,
    hasSCM_RIGHTS := true, hasShare := false }

/-- A platform with only the native handle-sharing primitive: the
loopback TCP backend wins. -/
def windowsPlatform : Platform :=
  { hasAF_UNIX := false, isLinux := false, hasSendmsg := false,
    hasSCM_RIGHTS := false, hasShare := true }

/-- A platform supporting none of the backends. -/
def barePlatform : Platform :=
  { hasAF_UNIX := false, isLinux := false, hasSendmsg := false,
    hasSCM_RIGHTS := false, hasShare := false }

instance : DecidableEq (Except InitError LockState) := fun a b =>
  match a, b with
  | .ok x, .ok y =>
    if h : x = y then .isTrue (congrArg Except.ok h)
    else .isFalse (fun hc => h (Except.ok.inj hc))
  | .error x, .error y =>
    if h : x = y then .isTrue (congrArg Except.error h)
    else .isFalse (fun hc => h (Except.error.inj hc))
  | .ok _, .error _ => .isFalse (fun hc => Except.noConfusion hc)
  | .error _, .ok _ => .isFalse (fun hc => Except.noConfusion hc)

/-- The state constructed on the named-Unix platform with temp
directory "tmp" and lock name "a". -/
def namedLockExample : LockState :=
  { addrFamily := .af_unix,
    addr := .unixPath (pathJoin [116, 109, 112] (PREFIX_TAG ++ [97])),
    needsUnlink := true, name := .bytes [97], maxWaiters := 1024, sock := none }

/-- A concrete entropy value. -/
def entA : Entropy :=
  { absByte := fun i => i, nameLenDraw := 0, nameCharDraw := fun i => i, portDraw := 0 }

/-- A second, different concrete entropy value. -/
def entB : Entropy :=
  { absByte := fun i => i + 1, nameLenDraw := 5, nameCharDraw := fun i => i + 3,
    portDraw := 1 }

/-! ## TCP-backend descriptor handoff (lines 118-147)

This variant of `_send_listening_fd` and `_recv_listening_sock` is the
one compiled when only `socket.share` is available.  Byte streams read
from a socket are modelled as a list of chunks, one chunk per `recv`
call; an empty chunk models a closed connection; an exhausted chunk
list models a `recv` that would block forever. -/

/-- dword = Struct("L"): on the platforms that select this backend the
native unsigned long is 4 bytes. -/
def dword_size : Nat := 4

/-- Little-endian (native order on the relevant platforms) decoding of
the 4 pid bytes, `dword.unpack`. -/
def unpackDword (bs : List Nat) : Nat :=
  bs.foldr (fun b acc => b % 256 + 256 * acc) 0

/-- The pid-receiving loop of `_send_listening_fd` (lines 120-125):
`while len(pid_buffer) < dword.size: recvd = recv(size - len); if not
recvd: return; pid_buffer += recvd`.  Each chunk is truncated to the
requested byte count.  Returns the filled buffer, or none when the
connection closed (or the modelled stream ran out) first. -/
def recvPidBytes : List (List Nat) → List Nat → Option (List Nat)
  | [], buf => if dword_size ≤ buf.length then some buf else none
  | c :: rest, buf =>
    if dword_size ≤ buf.length then some buf
    else
      let recvd := c.take (dword_size - buf.length)
      if recvd.isEmpty then none else recvPidBytes rest (buf ++ recvd)

/-- TCP-backend `_send_listening_fd` (lines 119-128): read the peer
pid, obtain `handle_bytes = self._socket.share(target_pid)` (modelled
by the `share` argument), then send
`bytes(len(handle_bytes),) + handle_bytes`.  In Python
`bytes(len(handle_bytes),)` is `bytes(N)` — N zero bytes — because the
trailing comma is inside the call parentheses, so the wire content is
N zero bytes followed by the N handle bytes.  Returns the bytes written
to the connection (empty when the pid never fully arrived and the
function returned early). -/
def sendListeningFd (share : Nat → List Nat) (pidChunks : List (List Nat)) :
    List Nat :=
  match recvPidBytes pidChunks [] with
  | none => []
  | some pidBuf =>
    let handle_bytes := share (unpackDword pidBuf)
    List.replicate handle_bytes.length 0 ++ handle_bytes

/-- Result of the TCP-backend `_recv_listening_sock`: the function
either calls `socket.fromshare` on the accumulated buffer and returns
True, or returns False, or would block forever on a `recv` (modelled
stream exhausted while more bytes were still expected). -/
inductive RecvHandleOutcome
  | gotHandle (fromshareArg : List Nat)
  | noHandle
  | blocked
deriving DecidableEq, Repr

/-- The accumulation loop of `_recv_listening_sock` (lines 136-142):
`while len(handle_bytes) < expected: recvd = recv(8); if not recvd:
handle_bytes = b empty; break; handle_bytes += recvd`, followed by the
final `if handle_bytes: fromshare(handle_bytes); return True`. -/
def recvHandleLoop : List (List Nat) → List Nat → Nat → RecvHandleOutcome
  | [], handle_bytes, expected =>
    if handle_bytes.length < expected then .blocked else .gotHandle handle_bytes
  | c :: rest, handle_bytes, expected =>
    if handle_bytes.length < expected then
      let recvd := c.take 8
      if recvd.isEmpty then .noHandle
      else recvHandleLoop rest (handle_bytes ++ recvd) expected
    else .gotHandle handle_bytes

/-- TCP-backend `_recv_listening_sock` (lines 130-147): after sending
our pid (not modelled here), `handle_bytes = recv(8)`; if empty, return
False; otherwise `expected = handle_bytes[0] + 1` and the loop above
runs; if the buffer survives, `socket.fromshare(handle_bytes)` is
called on the whole buffer — including the first byte. -/
def recvListeningSock (chunks : List (List Nat)) : RecvHandleOutcome :=
  match chunks with
  | [] => .blocked
  | c :: rest =>
    let handle_bytes := c.take 8
    if handle_bytes.isEmpty then .noHandle
    else recvHandleLoop rest handle_bytes (handle_bytes.headD 0 + 1)

/-! ## Connect retry loop and acquire loop (lines 159-194) -/

/-- Outcome of one `wait_sock.connect(self._addr)` call. -/
inductive ConnectOutcome
  | refused
  | fileNotFound
  | connected
deriving DecidableEq, Repr

/-- The only exception `attempt_connect_and_recv` raises itself:
RuntimeError when every connect attempt was refused (line 182). -/
inductive ConnectError
  | couldNotConnect
deriving DecidableEq, Repr

/-- The environment one call of `attempt_connect_and_recv` runs in:
the outcome of the i-th connect call, and the boolean result of
`_recv_listening_sock` should a connection be established. -/
structure ConnectEnv where
  connectResult : Nat → ConnectOutcome
  recvOk : Bool

instance : DecidableEq (Except ConnectError Bool) := fun a b =>
  match a, b with
  | .ok x, .ok y =>
    if h : x = y then .isTrue (congrArg Except.ok h)
    else .isFalse (fun hc => h (Except.ok.inj hc))
  | .error x, .error y =>
    if h : x = y then .isTrue (congrArg Except.error h)
    else .isFalse (fun hc => h (Except.error.inj hc))
  | .ok _, .error _ => .isFalse (fun hc => Except.noConfusion hc)
  | .error _, .ok _ => .isFalse (fun hc => Except.noConfusion hc)

/-- Observable result of one `attempt_connect_and_recv` call: the
returned boolean or raised error, the number of connect calls
performed, and the sleep durations performed (in seconds). -/
structure ConnectTrace where
  result : Except ConnectError Bool
  attempts : Nat
  sleeps : List ℚ
deriving DecidableEq, Repr

/-- The `for backoff in (0.0001, 0.001, 0.01, 0.1)` loop (lines
164-182): a refused connect sleeps the current backoff and moves to the
next one; FileNotFoundError returns False at once; a successful connect
leaves the loop and blocks on `_recv_listening_sock`; falling off the
loop raises RuntimeError. -/
def connectLoop (env : ConnectEnv) : List ℚ → Nat → List ℚ → ConnectTrace
  | [], n, slept => { result := .error .couldNotConnect, attempts := n, sleeps := slept }
  | b :: rest, n, slept =>
    match env.connectResult n with
    | .refused => connectLoop env rest (n + 1) (slept ++ [b])
    | .fileNotFound => { result := .ok false, attempts := n + 1, sleeps := slept }
    | .connected => { result := .ok env.recvOk, attempts := n + 1, sleeps := slept }

/-- The backoff tuple of line 164, in seconds. -/
def backoffs : List ℚ := [0.0001, 0.001, 0.01, 0.1]

/-- SocketLock.attempt_connect_and_recv (lines 159-187). -/
def attemptConnectAndRecv (env : ConnectEnv) : ConnectTrace :=
  connectLoop env backoffs 0 []

/-- The environment of one iteration of the `acquire` loop: whether the
`attempt_listen` bind succeeds, and the connect environment used if it
does not. -/
structure AcquireRound where
  bindOk : Bool
  env : ConnectEnv

/-- Outcome of `acquire` over a finite list of modelled loop rounds.
`outOfRounds` means the modelled environment was exhausted while the
real loop would simply keep iterating. -/
inductive AcquireOutcome
  | acquired
  | raised (e : ConnectError)
  | outOfRounds
deriving DecidableEq, Repr

/-- SocketLock.acquire (lines 189-194): loop forever, break when
`attempt_listen` or `attempt_connect_and_recv` returns True; a raised
error propagates to the caller. -/
def acquire : List AcquireRound → AcquireOutcome
  | [] => .outOfRounds
  | r :: rest =>
    if r.bindOk then .acquired
    else
      match (attemptConnectAndRecv r.env).result with
      | .ok true => .acquired
      | .ok false => acquire rest
      | .error e => .raised e

/-! ## Release (lines 196-223) -/

/-- A waiter connection sitting in the accept queue of the held
listening socket.  `postHandoffData` is what the single
`next_acquirer.recv(2)` call of line 217 returns after the handle was
sent (at most 2 bytes are delivered; the empty list is the clean
FIN). -/
structure Conn where
  connId : Nat
  postHandoffData : List Nat
deriving DecidableEq, Repr

/-- The `self._socket.accept()` call of line 201 on the non-blocking
held socket: it yields the first queued connection, or raises (for any
OS-specific reason — modelled by `acceptOk = false` — or because the
queue is empty). -/
def pyAccept (pending : List Conn) (acceptOk : Bool) : Option Conn :=
  if acceptOk then pending.head? else none

/-- The externally observable effects of one `release()` call. -/
structure ReleaseTrace where
  servicedConn : Option Nat
  handleSentTo : Option Nat
  loggedUnexpected : Bool
  acceptedConnClosed : Bool
  heldSocketClosed : Bool
  unlinkCalled : Bool
deriving DecidableEq, Repr

/-- SocketLock.release (lines 196-223) as a total function on its
modelled inputs — the real function raises on neither path.  If the
accept raises: close the held socket and unlink the address when
`self._needs_unlink` holds and the address is a byte/str path (lines
202-209).  If a connection was accepted: send the listening handle to
it, read at most 2 bytes, log when the read is non-empty, then close
the accepted connection and the held socket (lines 211-223). -/
def release (st : LockState) (pending : List Conn) (acceptOk : Bool) :
    ReleaseTrace :=
  match pyAccept pending acceptOk with
  | none =>
    { servicedConn := none, handleSentTo := none, loggedUnexpected := false,
      acceptedConnClosed := false, heldSocketClosed := true,
      unlinkCalled := st.needsUnlink && st.addr.isPathLike }
  | some next_acquirer =>
    let stuff := next_acquirer.postHandoffData.take 2
    { servicedConn := some next_acquirer.connId,
      handleSentTo := some next_acquirer.connId,
      loggedUnexpected := !stuff.isEmpty,
      acceptedConnClosed := true, heldSocketClosed := true,
      unlinkCalled := false }

/-- Whether the named-socket file still exists after a release, given
whether it existed before. -/
def fileExistsAfter (before : Bool) (tr : ReleaseTrace) : Bool :=
  before && !tr.unlinkCalled

/-! ## The `_socket` field over an instance lifetime (lines 149-223)

A small state machine recording what the `self._socket` attribute of
one instance references, together with a ghost flag for the notion of
the specification: whether the instance is the current lock holder
(between a successful acquire and the matching release). -/

/-- What `self._socket` references: Python None, an open socket whose
bind failed (left behind by an unsuccessful `attempt_listen`, line
150), an open bound-listening or received socket (the held one), or a
closed socket object. -/
inductive SockField
  | noneVal
  | openUnbound
  | openHeld
  | closedSock
deriving DecidableEq, Repr

/-- True when the referenced socket object is open. -/
def SockField.isOpen : SockField → Bool
  | .openUnbound => true
  | .openHeld => true
  | _ => false

/-- Instance state: the `_socket` field and the ghost holder flag. -/
structure MachineState where
  sockField : SockField
  holder : Bool
deriving DecidableEq, Repr

/-- State at the end of `__init__`: `self._socket = None` (line 80),
not a holder. -/
def initMachine : MachineState := { sockField := .noneVal, holder := false }

/-- SocketLock.attempt_listen (lines 149-157): line 150 assigns a fresh
open socket to `self._socket` before the bind; on bind/listen success
the socket is the held listening socket, on failure the fresh open
unbound socket stays referenced and False is returned. -/
def attemptListen (bindOk : Bool) (st : MachineState) : Bool × MachineState :=
  let st1 : MachineState := { st with sockField := .openUnbound }
  if bindOk then (true, { sockField := .openHeld, holder := true })
  else (false, st1)

/-- Effect of one `attempt_connect_and_recv` call on the `_socket`
field: only a successful `_recv_listening_sock` assigns it (the
received socket, lines 111/145); a False return or a raised error
leaves the field untouched (the waiting socket is a local that the
`with` block closes). -/
def attemptConnectRecvStep (res : Except ConnectError Bool) (st : MachineState) :
    MachineState :=
  match res with
  | .ok true => { sockField := .openHeld, holder := true }
  | .ok false => st
  | .error _ => st

/-- Effect of one `release()` call on the `_socket` field: every path
of lines 196-223 closes `self._socket` exactly once (line 205 or line
223).  When the field is None or already closed, the
`setblocking(False)` of line 199 raises before anything changes. -/
def releaseStep (st : MachineState) : MachineState :=
  match st.sockField with
  | .noneVal => st
  | .closedSock => st
  | _ => { sockField := .closedSock, holder := false }

/-- One externally driven event in the life of an instance. -/
inductive Event
  | listen (bindOk : Bool)
  | connectRecv (res : Except ConnectError Bool)
  | releaseEv
deriving DecidableEq

/-- Apply one event. -/
def MachineState.step (ev : Event) (st : MachineState) : MachineState :=
  match ev with
  | .listen bindOk => (attemptListen bindOk st).2
  | .connectRecv res => attemptConnectRecvStep res st
  | .releaseEv => releaseStep st

/-- Run a list of events from a state. -/
def runEvents : List Event → MachineState → MachineState
  | [], st => st
  | ev :: rest, st => runEvents rest (MachineState.step ev st)

/-- The call discipline the class is documented for (single-threaded,
scoped use): the acquire machinery (listen and connect attempts) runs
only while not holding, release only while holding. -/
def legalEvent (st : MachineState) : Event → Bool
  | .listen _ => !st.holder
  | .connectRecv _ => !st.holder
  | .releaseEv => st.holder

/-- Whether a whole event sequence respects the call discipline from a
given state. -/
def legalTrace : MachineState → List Event → Bool
  | _, [] => true
  | st, ev :: rest => legalEvent st ev && legalTrace (st.step ev) rest

/-! ## SocketLockThreadSafe (lines 232-246) -/

/-- State of the wrapper: whether `self._thread_lock` is held.
`_thread.allocate_lock()` locks are not reentrant: acquiring a held
lock blocks even from the thread that holds it. -/
structure ThreadSafeState where
  threadLockHeld : Bool
deriving DecidableEq, Repr

/-- Outcome of one `SocketLockThreadSafe.acquire` call. -/
inductive TSAcquire
  | blocksForever
  | returned (st : ThreadSafeState)
  | raised (e : ConnectError) (st : ThreadSafeState)
deriving DecidableEq, Repr

/-- SocketLockThreadSafe.acquire (lines 240-242):
`self._thread_lock.acquire(); super().acquire()`.  When the thread lock
is already held the first call blocks forever.  Otherwise the thread
lock is taken and the underlying acquire runs; there is no try/finally,
so a raised error leaves the thread lock held. -/
def tsAcquire (st : ThreadSafeState) (inner : Except ConnectError Unit) : TSAcquire :=
  if st.threadLockHeld then .blocksForever
  else
    match inner with
    | .ok _ => .returned { threadLockHeld := true }
    | .error e => .raised e { threadLockHeld := true }

/-- SocketLockThreadSafe.release (lines 244-246): `super().release()`
then `self._thread_lock.release()`; the thread lock is freed only when
the underlying release returns (`innerOk`). -/
def tsRelease (st : ThreadSafeState) (innerOk : Bool) : ThreadSafeState :=
  if innerOk then { threadLockHeld := false } else st

/-! ## replace_mp_context_locks (lines 249-256) -/

/-- A value the Lock attribute of a multiprocessing context can hold. -/
inductive LockFactory
  | socketLockThreadSafeFactory
  | originalFactory (id : Nat)
deriving DecidableEq, Repr

/-- A multiprocessing context object: its mutable Lock attribute and
all its other attributes, abstracted as a value of an arbitrary
type. -/
structure MpContext (α : Type) where
  Lock : LockFactory
  others : α

/-- replace_mp_context_locks (lines 249-256): save `mp_context.Lock`,
set it to SocketLockThreadSafe, run the with-block body (which may
finish normally or raise, and may itself mutate the context), and in
the `finally` clause restore the saved factory.  The body is modelled
as a function returning its outcome and the context as it left it. -/
def replace_mp_context_locks {α ε β : Type}
    (mp_context : MpContext α)
    (body : MpContext α → Except ε β × MpContext α) :
    Except ε β × MpContext α :=
  let original_lock_factory := mp_context.Lock
  let ctx1 := { mp_context with Lock := .socketLockThreadSafeFactory }
  let res := body ctx1
  (res.1, { res.2 with Lock := original_lock_factory })

/-! # Theorems -/

/-- Joining a fixed directory with two file names gives equal paths
exactly when the file names are equal. -/
theorem pathJoin_right_inj (dir f1 f2 : List Nat) :
    pathJoin dir f1 = pathJoin dir f2 ↔ f1 = f2 := by
  unfold pathJoin
  split_ifs with h1 h2
  · exact Iff.rfl
  · simp [List.append_cancel_left_eq]
  · simp [List.append_cancel_left_eq]

/-- The spec-side backend requirement predicates coincide with the
condition expressions the source tests, because the abstract-namespace
flag already implies the Unix-socket flag. -/
theorem requirements_eq (p : Platform) :
    abstractUnixRequirements p
      = (SUPPORTS_ABSTRACT_SOCKS p && SUPPORTS_CMSG_SHARE p)
  ∧ namedUnixRequirements p
      = (SUPPORTS_UNIX_SOCKS p && SUPPORTS_CMSG_SHARE p)
  ∧ loopbackTcpRequirements p = SUPPORTS_ANY_SHARE p := by
  obtain ⟨u, lin, sm, scm, sh⟩ := p
  refine ⟨?_, rfl, rfl⟩
  cases u <;> cases lin <;> cases sm <;> cases scm <;> rfl

/-- Every successfully constructed instance ends `__init__` with
`self._socket = None` (line 80): no socket is created during
construction. -/
theorem init_sock_none (p : Platform) (pyHash : List Nat → Int)
    (tmpdir : List Nat) (e : Entropy) (name : Option (List Nat)) (mw : Nat)
    (ap : Option (List Nat)) (st : LockState)
    (h : SocketLock.init p pyHash tmpdir e name mw ap = .ok st) :
    st.sock = none := by
  unfold SocketLock.init at h
  split_ifs at h
  · obtain rfl := Except.ok.inj h
    rfl
  · obtain rfl := Except.ok.inj h
    rfl
  · rcases name with _ | bs
    · simp [tcpNoName] at h
      subst h
      rfl
    · rcases bs with _ | ⟨b, bl⟩
      · simp [tcpNoName] at h
        subst h
        rfl
      · simp only [List.isEmpty_cons, if_false, Bool.false_eq_true] at h
        split at h
        · obtain rfl := Except.ok.inj h
          rfl
        · simp at h

/-- The backend a successful construction lands on follows the source
preference order: abstract Unix first, then named Unix, then loopback
TCP. -/
theorem init_backend_of_ok (p : Platform) (pyHash : List Nat → Int)
    (tmpdir : List Nat) (e : Entropy) (name : Option (List Nat)) (mw : Nat)
    (ap : Option (List Nat)) (st : LockState)
    (h : SocketLock.init p pyHash tmpdir e name mw ap = .ok st) :
    ((SUPPORTS_ABSTRACT_SOCKS p && SUPPORTS_CMSG_SHARE p) = true →
      st.backend = .abstractUnix)
  ∧ ((SUPPORTS_ABSTRACT_SOCKS p && SUPPORTS_CMSG_SHARE p) = false →
      (SUPPORTS_UNIX_SOCKS p && SUPPORTS_CMSG_SHARE p) = true →
      st.backend = .namedUnix)
  ∧ ((SUPPORTS_ABSTRACT_SOCKS p && SUPPORTS_CMSG_SHARE p) = false →
      (SUPPORTS_UNIX_SOCKS p && SUPPORTS_CMSG_SHARE p) = false →
      SUPPORTS_ANY_SHARE p = true →
      st.backend = .loopbackTcp) := by
  unfold SocketLock.init at h
  refine ⟨fun hA => ?_, fun hA hB => ?_, fun hA hB hC => ?_⟩
  · rw [hA] at h
    simp only [if_true] at h
    obtain rfl := Except.ok.inj h
    rfl
  · rw [hA, hB] at h
    simp only [Bool.false_eq_true, if_false, if_true] at h
    obtain rfl := Except.ok.inj h
    rfl
  · rw [hA, hB, hC] at h
    simp only [Bool.false_eq_true, if_false, if_true] at h
    rcases name with _ | bs
    · simp [tcpNoName] at h
      subst h
      rfl
    · rcases bs with _ | ⟨b, bl⟩
      · simp [tcpNoName] at h
        subst h
        rfl
      · simp only [List.isEmpty_cons, if_false, Bool.false_eq_true] at h
        split at h
        · obtain rfl := Except.ok.inj h
          rfl
        · simp at h

/-- C5: construction raises the unsupported-platform error exactly when
none of the three backend requirement sets is satisfied; the backend
check follows the preference order abstract Unix, named Unix, loopback
TCP with the first supported backend winning (on the first two the
construction always succeeds; on the TCP backend the only other
possible outcome is the IndexError of line 69, never the
unsupported-platform error); and a successful construction ends with no
socket created (`_socket = None`). -/
theorem c5_backend_selection (p : Platform) (pyHash : List Nat → Int)
    (tmpdir : List Nat) (e : Entropy) (name : Option (List Nat)) (mw : Nat)
    (ap : Option (List Nat)) :
    (SocketLock.init p pyHash tmpdir e name mw ap = .error .unsupportedPlatform
      ↔ abstractUnixRequirements p = false ∧ namedUnixRequirements p = false
          ∧ loopbackTcpRequirements p = false)
  ∧ (abstractUnixRequirements p = true →
      ∃ st, SocketLock.init p pyHash tmpdir e name mw ap = .ok st
        ∧ st.backend = .abstractUnix)
  ∧ (abstractUnixRequirements p = false → namedUnixRequirements p = true →
      ∃ st, SocketLock.init p pyHash tmpdir e name mw ap = .ok st
        ∧ st.backend = .namedUnix)
  ∧ (abstractUnixRequirements p = false → namedUnixRequirements p = false →
      loopbackTcpRequirements p = true →
      SocketLock.init p pyHash tmpdir e name mw ap ≠ .error .unsupportedPlatform
      ∧ ∀ st, SocketLock.init p pyHash tmpdir e name mw ap = .ok st →
          st.backend = .loopbackTcp)
  ∧ (∀ st, SocketLock.init p pyHash tmpdir e name mw ap = .ok st →
      st.sock = none) := by
  have hreq := requirements_eq p
  cases hA : SUPPORTS_ABSTRACT_SOCKS p && SUPPORTS_CMSG_SHARE p with
  | true =>
    have habs : abstractUnixRequirements p = true := hreq.1.trans hA
    refine ⟨?_, ?_, ?_, ?_, fun st h => init_sock_none _ _ _ _ _ _ _ _ h⟩
    · simp [SocketLock.init, hA, habs]
    · intro _
      have hok : ∃ st, SocketLock.init p pyHash tmpdir e name mw ap = .ok st := by
        unfold SocketLock.init
        rw [hA]
        exact ⟨_, rfl⟩
      obtain ⟨st, hok⟩ := hok
      exact ⟨st, hok, (init_backend_of_ok _ _ _ _ _ _ _ _ hok).1 hA⟩
    · intro hra
      rw [habs] at hra
      exact absurd hra (by simp)
    · intro hra
      rw [habs] at hra
      exact absurd hra (by simp)
  | false =>
    cases hB : SUPPORTS_UNIX_SOCKS p && SUPPORTS_CMSG_SHARE p with
    | true =>
      have hnam : namedUnixRequirements p = true := hreq.2.1.trans hB
      refine ⟨?_, ?_, ?_, ?_, fun st h => init_sock_none _ _ _ _ _ _ _ _ h⟩
      · simp [SocketLock.init, hA, hB, hnam]
      · intro hra
        have : (SUPPORTS_ABSTRACT_SOCKS p && SUPPORTS_CMSG_SHARE p) = true :=
          hreq.1.symm.trans hra
        rw [hA] at this
        exact absurd this (by simp)
      · intro _ _
        have hok : ∃ st, SocketLock.init p pyHash tmpdir e name mw ap = .ok st := by
          unfold SocketLock.init
          rw [hA, hB]
          exact ⟨_, rfl⟩
        obtain ⟨st, hok⟩ := hok
        exact ⟨st, hok, (init_backend_of_ok _ _ _ _ _ _ _ _ hok).2.1 hA hB⟩
      · intro _ hrb
        rw [hnam] at hrb
        exact absurd hrb (by simp)
    | false =>
      cases hC : SUPPORTS_ANY_SHARE p with
      | true =>
        have htcp : loopbackTcpRequirements p = true := hreq.2.2.trans hC
        refine ⟨?_, ?_, ?_, ?_, fun st h => init_sock_none _ _ _ _ _ _ _ _ h⟩
        · rcases name with _ | (_ | ⟨b, bl⟩)
          · simp [SocketLock.init, hA, hB, hC, tcpNoName, htcp]
          · simp [SocketLock.init, hA, hB, hC, tcpNoName, htcp]
          · simp only [SocketLock.init, hA, hB, hC, htcp, Bool.false_eq_true,
              if_false, if_true, List.isEmpty_cons]
            constructor
            · intro hcontra
              split at hcontra <;> simp at hcontra
            · rintro ⟨-, -, hcontra⟩
              exact absurd hcontra (by simp)
        · intro hra
          have : (SUPPORTS_ABSTRACT_SOCKS p && SUPPORTS_CMSG_SHARE p) = true :=
            hreq.1.symm.trans hra
          rw [hA] at this
          exact absurd this (by simp)
        · intro _ hrb
          have : (SUPPORTS_UNIX_SOCKS p && SUPPORTS_CMSG_SHARE p) = true :=
            hreq.2.1.symm.trans hrb
          rw [hB] at this
          exact absurd this (by simp)
        · intro _ _ _
          constructor
          · intro hcontra
            rcases name with _ | (_ | ⟨b, bl⟩)
            · simp [SocketLock.init, hA, hB, hC, tcpNoName] at hcontra
            · simp [SocketLock.init, hA, hB, hC, tcpNoName] at hcontra
            · simp only [SocketLock.init, hA, hB, hC, Bool.false_eq_true,
                if_false, if_true, List.isEmpty_cons] at hcontra
              split at hcontra <;> simp at hcontra
          · intro st h
            exact (init_backend_of_ok _ _ _ _ _ _ _ _ h).2.2 hA hB hC
      | false =>
        have habs : abstractUnixRequirements p = false := hreq.1.trans hA
        have hnam : namedUnixRequirements p = false := hreq.2.1.trans hB
        have htcp : loopbackTcpRequirements p = false := hreq.2.2.trans hC
        refine ⟨?_, ?_, ?_, ?_, fun st h => init_sock_none _ _ _ _ _ _ _ _ h⟩
        · simp [SocketLock.init, hA, hB, hC, habs, hnam, htcp]
        · intro hra
          rw [habs] at hra
          exact absurd hra (by simp)
        · intro _ hrb
          rw [hnam] at hrb
          exact absurd hrb (by simp)
        · intro _ _ hrc
          rw [htcp] at hrc
          exact absurd hrc (by simp)

/-- Witness for C5 at a concrete platform with no backend support:
construction fails with the unsupported-platform error. -/
theorem c5_backend_selection_witness :
    SocketLock.init barePlatform (fun _ => 0) [] entA none 1024 none
      = .error .unsupportedPlatform :=
  (c5_backend_selection barePlatform (fun _ => 0) [] entA none 1024 none).1.mpr
    ⟨rfl, rfl, rfl⟩

/-- C1 counterexample: the claim that for every fixed backend two
constructions with the same non-empty name (and the same allowed port
range) yield byte-identical addresses fails across processes on the
loopback-TCP backend, because the port is derived from the Python
`hash` of the name (line 68) and that hash is salted per process: with
allowed ports [10000, 10001] and name "a", a process whose hash of the
name is 0 derives port 10000 while a process whose hash of it is 1
derives port 10001 — same backend, same name, same port range,
different addresses. -/
theorem c1_address_derivation_counterexample :
    SocketLock.init windowsPlatform (fun _ => 0) [] entA (some [97]) 1024
        (some [10000, 10001])
      ≠ SocketLock.init windowsPlatform (fun _ => 1) [] entA (some [97]) 1024
        (some [10000, 10001]) := by decide

/-- C1 amended: address derivation is deterministic in the backend and
the logical name for constructions sharing the process-wide hash
function (always the case within one process, or across processes with
a fixed hash seed): such constructions with the same non-empty name and
the same allowed port range produce identical results whatever random
draws each would have made.  On the Unix backends the hash is never
consulted, so the same-name determinism there holds across processes
with different hash functions as well; only the TCP backend's
hash-derived port breaks cross-process determinism.  With no name, the
derived address is determined by and determines the freshly drawn
random identity stored in the name field, so two no-name constructions
produce equal addresses exactly when their random draws produced the
same identity — distinct draws give distinct addresses, which is the
content of the overwhelming-probability statement given uniform draws
over a large space. -/
theorem c1_address_derivation_deterministic (p : Platform)
    (pyHash pyHash2 : List Nat → Int) (tmpdir : List Nat) (mw : Nat)
    (ap : Option (List Nat)) (e1 e2 : Entropy) (bs : List Nat)
    (hbs : bs ≠ []) :
    SocketLock.init p pyHash tmpdir e1 (some bs) mw ap
      = SocketLock.init p pyHash tmpdir e2 (some bs) mw ap
  ∧ ((SUPPORTS_UNIX_SOCKS p && SUPPORTS_CMSG_SHARE p) = true →
      SocketLock.init p pyHash tmpdir e1 (some bs) mw ap
        = SocketLock.init p pyHash2 tmpdir e2 (some bs) mw ap)
  ∧ (∀ st1 st2, SocketLock.init p pyHash tmpdir e1 none mw ap = .ok st1 →
      SocketLock.init p pyHash tmpdir e2 none mw ap = .ok st2 →
      (st1.addr = st2.addr ↔ st1.name = st2.name)) := by
  refine ⟨?_, ?_, ?_⟩
  · cases bs with
    | nil => exact absurd rfl hbs
    | cons a l => rfl
  · intro hcb
    cases bs with
    | nil => exact absurd rfl hbs
    | cons a l =>
      cases hA : SUPPORTS_ABSTRACT_SOCKS p && SUPPORTS_CMSG_SHARE p with
      | true =>
        unfold SocketLock.init
        rw [hA]
        rfl
      | false =>
        unfold SocketLock.init
        rw [hA, hcb]
        rfl
  · intro st1 st2 h1 h2
    by_cases hA : (SUPPORTS_ABSTRACT_SOCKS p && SUPPORTS_CMSG_SHARE p) = true
    · simp [SocketLock.init, hA] at h1 h2
      subst h1; subst h2
      simp [List.append_cancel_left_eq]
    · by_cases hB : (SUPPORTS_UNIX_SOCKS p && SUPPORTS_CMSG_SHARE p) = true
      · simp [SocketLock.init, hA, hB] at h1 h2
        subst h1; subst h2
        simp [pathJoin_right_inj, List.append_cancel_left_eq]
      · by_cases hC : SUPPORTS_ANY_SHARE p = true
        · simp [SocketLock.init, hA, hB, hC, tcpNoName] at h1 h2
          subst h1; subst h2
          simp
        · simp [SocketLock.init, hA, hB, hC] at h1

/-- Witness for C1 amended: on the named-Unix platform two
constructions of the lock named "a" coincide even with different
process hash functions and different entropy draws. -/
theorem c1_address_derivation_deterministic_witness :
    SocketLock.init bsdPlatform (fun _ => 0) [] entA (some [97]) 1024 none
      = SocketLock.init bsdPlatform (fun _ => 1) [] entB (some [97]) 1024 none :=
  (c1_address_derivation_deterministic bsdPlatform (fun _ => 0) (fun _ => 1)
    [] 1024 none entA entB [97] (by simp)).2.1 rfl

/-- The connect loop performs at most as many further connect attempts
as there are backoff values left. -/
theorem connectLoop_attempts_le (env : ConnectEnv) (l : List ℚ) (n : Nat)
    (slept : List ℚ) : (connectLoop env l n slept).attempts ≤ n + l.length := by
  induction l generalizing n slept with
  | nil => simp [connectLoop]
  | cons b rest ih =>
    simp only [connectLoop, List.length_cons]
    cases env.connectResult n with
    | refused =>
      dsimp only
      have := ih (n + 1) (slept ++ [b])
      omega
    | fileNotFound =>
      dsimp only
      omega
    | connected =>
      dsimp only
      omega

/-- C4: attempt_connect_and_recv makes at most four connect attempts,
with strictly increasing backoff sleeps 0.0001 s, 0.001 s, 0.01 s,
0.1 s performed after each refused connection (when the first k
attempts are refused, exactly the first k backoffs have been slept); a
FileNotFoundError on connect returns False — a lost race — which makes
the acquire loop restart its next round immediately; and when all four
attempts are refused the call raises the could-not-connect RuntimeError
which acquire propagates without consuming further rounds. -/
theorem c4_connect_retry_policy :
    (∀ env, (attemptConnectAndRecv env).attempts ≤ 4)
  ∧ backoffs.Chain' (· < ·)
  ∧ (∀ env, (∀ i, i < 4 → env.connectResult i = .refused) →
      attemptConnectAndRecv env
        = { result := .error .couldNotConnect, attempts := 4, sleeps := backoffs })
  ∧ (∀ env k, k < 4 → (∀ i, i < k → env.connectResult i = .refused) →
      env.connectResult k = .fileNotFound →
      attemptConnectAndRecv env
        = { result := .ok false, attempts := k + 1, sleeps := backoffs.take k })
  ∧ (∀ r rest, r.bindOk = false →
      (attemptConnectAndRecv r.env).result = .ok false →
      acquire (r :: rest) = acquire rest)
  ∧ (∀ r rest e, r.bindOk = false →
      (attemptConnectAndRecv r.env).result = .error e →
      acquire (r :: rest) = .raised e) := by
  refine ⟨?_, ?_, ?_, ?_, ?_, ?_⟩
  · intro env
    exact connectLoop_attempts_le env backoffs 0 []
  · norm_num [backoffs, List.chain'_cons, List.chain'_singleton]
  · intro env h
    have h0 := h 0 (by omega)
    have h1 := h 1 (by omega)
    have h2 := h 2 (by omega)
    have h3 := h 3 (by omega)
    simp [attemptConnectAndRecv, backoffs, connectLoop, h0, h1, h2, h3]
  · intro env k hk hlt hk2
    interval_cases k
    · simp [attemptConnectAndRecv, backoffs, connectLoop, hk2]
    · have h0 := hlt 0 (by omega)
      simp [attemptConnectAndRecv, backoffs, connectLoop, h0, hk2]
    · have h0 := hlt 0 (by omega)
      have h1 := hlt 1 (by omega)
      simp [attemptConnectAndRecv, backoffs, connectLoop, h0, h1, hk2]
    · have h0 := hlt 0 (by omega)
      have h1 := hlt 1 (by omega)
      have h2 := hlt 2 (by omega)
      simp [attemptConnectAndRecv, backoffs, connectLoop, h0, h1, h2, hk2]
  · intro r rest hbind hres
    simp [acquire, hbind, hres]
  · intro r rest e hbind hres
    simp [acquire, hbind, hres]

/-- Witness for C4 at a concrete environment where every connect is
refused: four attempts, all four sleeps, a fatal error. -/
theorem c4_connect_retry_policy_witness :
    attemptConnectAndRecv { connectResult := fun _ => .refused, recvOk := true }
      = { result := .error .couldNotConnect, attempts := 4, sleeps := backoffs } :=
  c4_connect_retry_policy.2.2.1 _ (fun _ _ => rfl)

/-- C2: for the loopback-TCP backend with a non-empty name, the claim
says the port is `allowed_ports[hash(name) mod len(allowed_ports)]`, so
the index is always in bounds and construction succeeds for every name.
The source (line 68) instead computes
`hash(name) % (len(allowed_inet_ports) + 1)`, which can equal
`len(allowed_inet_ports)` and then the indexing raises IndexError: with
allowed ports [10000, 10001] and a name whose process hash value is 2,
construction fails, while the spec formula would yield the in-bounds
port 10000. -/
theorem c2_port_derivation_index_error :
    SocketLock.init windowsPlatform (fun _ => 2) [] entA (some [97]) 1024
        (some [10000, 10001]) = .error .indexError
  ∧ specTcpPort (fun _ => 2) [97] [10000, 10001] = some 10000 := by
  constructor
  · rfl
  · rfl

/-- C3: the claim says the TCP-backend sender transmits one byte whose
value is the length N of the handle representation followed by the N
representation bytes, and the receiver reconstructs the handle from the
N bytes excluding the prefix byte.  The source does neither: with a
1-byte handle representation [7] and a completed pid exchange, the
sender transmits [0, 7] (because `bytes(len(handle_bytes),)` is
`bytes(N)`, N zero bytes) instead of [1, 7]; and the receiver passes
the whole buffer including the leading length byte to
`socket.fromshare` — even on the wire format the claim describes,
[1, 7], it would reconstruct from [1, 7] rather than [7].  Only the
empty-read behaviour matches the claim: an empty first read yields the
no-handle result. -/
theorem c3_tcp_handoff_wire_mismatch :
    sendListeningFd (fun _ => [7]) [[1, 0, 0, 0]] = [0, 7]
  ∧ recvListeningSock [[0, 7]] = .gotHandle [0, 7]
  ∧ recvListeningSock [[1, 7]] = .gotHandle [1, 7]
  ∧ recvListeningSock [[]] = .noHandle := by
  refine ⟨rfl, rfl, rfl, rfl⟩

/-- For every constructed instance, the release-time unlink condition
`self._needs_unlink and isinstance(self._addr, (bytes, bytearray,
str))` holds exactly when the instance is on the named-Unix backend. -/
theorem init_unlink_iff_named (p : Platform) (pyHash : List Nat → Int)
    (tmpdir : List Nat) (e : Entropy) (name : Option (List Nat)) (mw : Nat)
    (ap : Option (List Nat)) (st : LockState)
    (h : SocketLock.init p pyHash tmpdir e name mw ap = .ok st) :
    (st.needsUnlink && st.addr.isPathLike) = true ↔ st.backend = .namedUnix := by
  unfold SocketLock.init at h
  split_ifs at h
  · obtain rfl := Except.ok.inj h
    simp [LockState.backend, Addr.isPathLike]
  · obtain rfl := Except.ok.inj h
    simp [LockState.backend, Addr.isPathLike]
  · rcases name with _ | bs
    · simp [tcpNoName] at h
      subst h
      simp [LockState.backend, Addr.isPathLike]
    · rcases bs with _ | ⟨b, bl⟩
      · simp [tcpNoName] at h
        subst h
        simp [LockState.backend, Addr.isPathLike]
      · simp only [List.isEmpty_cons, if_false, Bool.false_eq_true] at h
        split at h
        · obtain rfl := Except.ok.inj h
          simp [LockState.backend, Addr.isPathLike]
        · simp at h

/-- C6: when release() finds no pending waiter (the accept on the held
socket fails for any reason), it closes the held socket, calls unlink
on the address exactly when the instance is on the named-Unix backend,
services and contacts no connection, and — being a total function on
its modelled inputs — returns without raising; afterwards, on the
named backend, the socket file no longer exists. -/
theorem c6_release_no_waiter (p : Platform) (pyHash : List Nat → Int)
    (tmpdir : List Nat) (e : Entropy) (name : Option (List Nat)) (mw : Nat)
    (ap : Option (List Nat)) (st : LockState)
    (hst : SocketLock.init p pyHash tmpdir e name mw ap = .ok st)
    (pending : List Conn) (acceptOk : Bool)
    (hnone : pyAccept pending acceptOk = none) :
    (release st pending acceptOk).heldSocketClosed = true
  ∧ ((release st pending acceptOk).unlinkCalled = true ↔ st.backend = .namedUnix)
  ∧ (st.backend = .namedUnix →
      fileExistsAfter true (release st pending acceptOk) = false)
  ∧ (release st pending acceptOk).servicedConn = none
  ∧ (release st pending acceptOk).handleSentTo = none := by
  have hiff := init_unlink_iff_named p pyHash tmpdir e name mw ap st hst
  have hrel : release st pending acceptOk
      = { servicedConn := none, handleSentTo := none, loggedUnexpected := false,
          acceptedConnClosed := false, heldSocketClosed := true,
          unlinkCalled := st.needsUnlink && st.addr.isPathLike } := by
    unfold release
    rw [hnone]
  rw [hrel]
  refine ⟨rfl, hiff, ?_, rfl, rfl⟩
  intro hn
  simp [fileExistsAfter, hiff.mpr hn]

/-- Witness for C6 on the named-Unix backend state built from temp
directory "tmp" and name "a": releasing with an empty accept queue
closes the held socket and unlinks the socket file, and afterwards the
file no longer exists. -/
theorem c6_release_no_waiter_witness :
    (release namedLockExample [] true).heldSocketClosed = true
  ∧ ((release namedLockExample [] true).unlinkCalled = true
      ↔ namedLockExample.backend = .namedUnix)
  ∧ (namedLockExample.backend = .namedUnix →
      fileExistsAfter true (release namedLockExample [] true) = false) :=
  ⟨(c6_release_no_waiter bsdPlatform (fun _ => 0) [116, 109, 112] entA
      (some [97]) 1024 none namedLockExample rfl [] true rfl).1,
   (c6_release_no_waiter bsdPlatform (fun _ => 0) [116, 109, 112] entA
      (some [97]) 1024 none namedLockExample rfl [] true rfl).2.1,
   (c6_release_no_waiter bsdPlatform (fun _ => 0) [116, 109, 112] entA
      (some [97]) 1024 none namedLockExample rfl [] true rfl).2.2.1⟩

/-- C7: a release call services at most the first pending waiter
connection: the serviced connection is either absent or the head of the
accept queue; when a waiter is accepted the listening handle is sent to
exactly that connection, a non-empty post-handoff read is merely
flagged for logging (the function is total, so never fatal), and on
every accepted path — empty or non-empty read — both the accepted
connection and the held listening socket are closed; the held socket is
closed on the no-waiter path as well, and unlink never runs on the
accepted path. -/
theorem c7_release_first_waiter_only (st : LockState) (c : Conn)
    (rest : List Conn) (pending : List Conn) (acceptOk : Bool) :
    release st (c :: rest) true
      = { servicedConn := some c.connId, handleSentTo := some c.connId,
          loggedUnexpected := !(c.postHandoffData.take 2).isEmpty,
          acceptedConnClosed := true, heldSocketClosed := true,
          unlinkCalled := false }
  ∧ ((release st pending acceptOk).servicedConn = none
      ∨ (release st pending acceptOk).servicedConn
          = pending.head?.map Conn.connId)
  ∧ (release st pending acceptOk).heldSocketClosed = true := by
  refine ⟨rfl, ?_, ?_⟩
  · cases acceptOk with
    | false =>
      cases pending <;> simp [release, pyAccept]
    | true =>
      cases pending <;> simp [release, pyAccept]
  · cases acceptOk with
    | false => cases pending <;> rfl
    | true => cases pending <;> rfl

/-- C9: replace_mp_context_locks sets the Lock slot of the context to
the socket-lock factory for the duration of the scope (the body sees
exactly the original context with only Lock replaced), restores the
slot to its original value on every exit path — the result, normal or
exceptional, is whatever the body produced, and the restoration does
not depend on it — and modifies no other attribute of the context
object (the others field is exactly what the body left, and a body
that does nothing gets back exactly the original context). -/
theorem c9_replace_mp_context_locks_scoped {α ε β : Type}
    (ctx : MpContext α) (body : MpContext α → Except ε β × MpContext α) :
    (replace_mp_context_locks ctx body).2.Lock = ctx.Lock
  ∧ (replace_mp_context_locks ctx body).1
      = (body { ctx with Lock := .socketLockThreadSafeFactory }).1
  ∧ (replace_mp_context_locks ctx body).2.others
      = (body { ctx with Lock := .socketLockThreadSafeFactory }).2.others
  ∧ (∀ ctx2 : MpContext α,
      replace_mp_context_locks (ε := ε) ctx2 (fun c => (Except.ok (), c))
        = (Except.ok (), ctx2)) := by
  refine ⟨rfl, rfl, rfl, fun ctx2 => rfl⟩

/-- Along every trace respecting the call discipline, the `_socket`
field references the open held socket exactly while the instance is the
holder. -/
theorem legalTrace_preserves_inv (evs : List Event) (st : MachineState)
    (hleg : legalTrace st evs = true)
    (h : st.sockField = .openHeld ↔ st.holder = true) :
    (runEvents evs st).sockField = .openHeld
      ↔ (runEvents evs st).holder = true := by
  induction evs generalizing st with
  | nil => simpa [runEvents] using h
  | cons ev rest ih =>
    simp only [legalTrace, Bool.and_eq_true] at hleg
    refine ih (st.step ev) hleg.2 ?_
    cases ev with
    | listen bindOk =>
      have hnh : st.holder = false := by simpa [legalEvent] using hleg.1
      cases bindOk <;> simp [MachineState.step, attemptListen, hnh]
    | connectRecv res =>
      rcases res with eerr | b
      · exact h
      · cases b with
        | false => exact h
        | true => simp [MachineState.step, attemptConnectRecvStep]
    | releaseEv =>
      have hh : st.holder = true := by simpa [legalEvent] using hleg.1
      have hf : st.sockField = .openHeld := h.mpr hh
      simp [MachineState.step, releaseStep, hf]

/-- C8 counterexample: the claim that `_socket` is populated with an
open socket exactly while the instance holds the lock fails on the
concrete legal trace consisting of one failed `attempt_listen` (bind
lost to another holder): line 150 has already assigned a fresh open
socket to `self._socket`, so after the call the field references an
open socket although the instance is not the holder. -/
theorem c8_held_socket_counterexample :
    legalTrace initMachine [.listen false] = true
  ∧ (runEvents [.listen false] initMachine).sockField.isOpen = true
  ∧ (runEvents [.listen false] initMachine).holder = false :=
  ⟨rfl, rfl, rfl⟩

/-- C8 amended: under the documented call discipline the `_socket`
field references the open, held (bound-listening or received) socket
exactly while the instance is the current holder; however the field is
also populated — with an open unbound socket — by a failed
`attempt_listen`, so being non-None and open does not coincide with
holding; each release on a holding state closes the held socket exactly
once, leaving the field referencing a closed socket object (not None),
so after release the instance no longer holds an open held socket. -/
theorem c8_held_socket_invariant (evs : List Event)
    (hleg : legalTrace initMachine evs = true) :
    ((runEvents evs initMachine).sockField = .openHeld
      ↔ (runEvents evs initMachine).holder = true)
  ∧ (∀ st : MachineState, st.sockField = .openHeld →
      releaseStep st = { sockField := .closedSock, holder := false })
  ∧ (∀ st : MachineState,
      (attemptListen false st).2.sockField = .openUnbound
      ∧ (attemptListen false st).1 = false) := by
  refine ⟨legalTrace_preserves_inv evs initMachine hleg (by simp [initMachine]),
    ?_, fun st => ⟨rfl, rfl⟩⟩
  intro st hf
  simp [releaseStep, hf]

/-- Witness for C8 amended on the concrete legal trace of a successful
listen followed by a release: afterwards the field is not the open held
socket and the instance is not the holder. -/
theorem c8_held_socket_invariant_witness :
    (runEvents [.listen true, .releaseEv] initMachine).sockField = .openHeld
      ↔ (runEvents [.listen true, .releaseEv] initMachine).holder = true :=
  (c8_held_socket_invariant [.listen true, .releaseEv] rfl).1

/-- C10: when the underlying acquire raises inside
SocketLockThreadSafe.acquire, the per-instance thread lock taken at the
start of the call stays held on the error path; any subsequent acquire
call on the instance then blocks forever, and only a successful
release() frees the thread lock. -/
theorem c10_thread_lock_held_after_error (st : ThreadSafeState)
    (e : ConnectError) (h : st.threadLockHeld = false) :
    tsAcquire st (.error e) = .raised e { threadLockHeld := true }
  ∧ (∀ inner, tsAcquire { threadLockHeld := true } inner = .blocksForever)
  ∧ (∀ innerOk, (tsRelease { threadLockHeld := true } innerOk).threadLockHeld
      = !innerOk) := by
  refine ⟨by simp [tsAcquire, h], fun inner => rfl, fun innerOk => ?_⟩
  cases innerOk <;> rfl

/-- Witness for C10 at a concrete state: the fatal connect error leaves
the thread lock held and the next acquire call blocks forever. -/
theorem c10_thread_lock_held_after_error_witness :
    tsAcquire { threadLockHeld := false } (.error .couldNotConnect)
      = .raised .couldNotConnect { threadLockHeld := true }
  ∧ tsAcquire { threadLockHeld := true } (.ok ())
      = .blocksForever :=
  ⟨(c10_thread_lock_held_after_error { threadLockHeld := false }
      .couldNotConnect rfl).1,
   (c10_thread_lock_held_after_error { threadLockHeld := false }
      .couldNotConnect rfl).2.1 (.ok ())⟩

end Socklocks
